import Mathlib

/-!
Verification of the vendordetailer bulk-operation core.

The definitions below are a shallow embedding of:
  * `ShopifyService.bulkUpdateVendor` and `makeGraphQLRequestWithRetry`
    (src/server/services/shopify.ts),
  * `BulkJobProcessor.processJob` / `retryJob` / `cancelJob`
    (src/unnamed/part_002, the current bulk-jobs module),
  * `RateLimiter.middleware` (src/server/middleware/rate-limit.ts).
External I/O (the per-item GraphQL call, the credential lookup) is supplied
as an explicit oracle argument; persisted job updates are collected into an
explicit trace.  Timestamps are naturals (milliseconds).
-/

namespace VendorDetailer

/-- Job status enum from the schema: PENDING | RUNNING | SUCCESS | FAILED. -/
inductive JobStatus where
  | PENDING
  | RUNNING
  | SUCCESS
  | FAILED
deriving DecidableEq, Repr

/-- The persisted bulk-job record (the fields the core reads and writes). -/
structure JobRecord where
  status : JobStatus
  productIds : List String
  targetVendor : String
  totalCount : Nat
  processedCount : Nat
  errorMessage : Option String
  completedAt : Option Nat
deriving DecidableEq, Repr

/-- A field/message pair inside a `productUpdate.userErrors` response entry. -/
structure FieldError where
  field : String
  message : String
deriving DecidableEq, Repr

/-- An entry of `BulkUpdateResult.userErrors` (tagged with the product id). -/
structure UserError where
  productId : String
  field : String
  message : String
deriving DecidableEq, Repr

/-- An entry of `BulkUpdateResult.errors` (a thrown transport error). -/
structure ApiError where
  productId : String
  error : String
deriving DecidableEq, Repr

/-- Aggregated result of `ShopifyService.bulkUpdateVendor`. -/
structure BulkUpdateResult where
  successCount : Nat
  failureCount : Nat
  errors : List ApiError
  userErrors : List UserError
deriving DecidableEq, Repr

def emptyBulkResult : BulkUpdateResult :=
  { successCount := 0, failureCount := 0, errors := [], userErrors := [] }

/-- Outcome of one `updateProductVendor` call, supplied as an oracle:
`.error msg` models the call throwing, `.ok errs` models a response whose
`productUpdate.userErrors` list is `errs` (empty on success). -/
abbrev ItemOracle := String → Except String (List FieldError)

/-- One iteration of the `for (const productId of productIds)` loop in
`ShopifyService.bulkUpdateVendor`: a thrown call counts the item as one
failure with a transport-error entry; a returned non-empty `userErrors`
list counts the item as one failure and appends one tagged entry per
error; otherwise the item counts as one success. -/
def bulkStep (oracle : ItemOracle) (acc : BulkUpdateResult)
    (productId : String) : BulkUpdateResult :=
  match oracle productId with
  | .error msg =>
      { acc with failureCount := acc.failureCount + 1,
                 errors := acc.errors ++ [{ productId := productId, error := msg }] }
  | .ok errs =>
      if errs.length > 0 then
        { acc with failureCount := acc.failureCount + 1,
                   userErrors := acc.userErrors ++
                     errs.map (fun e =>
                       { productId := productId, field := e.field, message := e.message }) }
      else
        { acc with successCount := acc.successCount + 1 }

/-- `ShopifyService.bulkUpdateVendor`: sequential per-item loop accumulating
an aggregated `BulkUpdateResult` (the inter-call pacing delay does not
affect the returned value and is omitted from this value-level embedding). -/
def bulkUpdateVendor (oracle : ItemOracle) (productIds : List String) :
    BulkUpdateResult :=
  productIds.foldl (bulkStep oracle) emptyBulkResult

theorem bulkStep_counts (oracle : ItemOracle) (acc : BulkUpdateResult)
    (pid : String) :
    (bulkStep oracle acc pid).successCount + (bulkStep oracle acc pid).failureCount
      = acc.successCount + acc.failureCount + 1 := by
  unfold bulkStep
  cases oracle pid with
  | error msg => simp; omega
  | ok errs =>
      by_cases h : errs.length > 0 <;> simp [h] <;> omega

theorem bulk_foldl_counts (oracle : ItemOracle) (ids : List String) :
    ∀ acc : BulkUpdateResult,
      (ids.foldl (bulkStep oracle) acc).successCount
        + (ids.foldl (bulkStep oracle) acc).failureCount
      = acc.successCount + acc.failureCount + ids.length := by
  induction ids with
  | nil => intro acc; simp
  | cons pid rest ih =>
      intro acc
      have h := bulkStep_counts oracle acc pid
      simp only [List.foldl_cons, List.length_cons]
      rw [ih (bulkStep oracle acc pid)]
      omega

/-- C10: for every input list, the aggregated result of `bulkUpdateVendor`
satisfies `successCount + failureCount = length of the input list`: each
item is counted exactly once, as a success, a validation failure, or a
transport failure. -/
theorem C10_bulk_counts_partition (oracle : ItemOracle) (ids : List String) :
    (bulkUpdateVendor oracle ids).successCount
      + (bulkUpdateVendor oracle ids).failureCount = ids.length := by
  unfold bulkUpdateVendor
  rw [bulk_foldl_counts oracle ids emptyBulkResult]
  simp [emptyBulkResult]

/-! ### Batch chunking (`job.productIds.slice(i, i + batchSize)` loop) -/

/-- Splits `l` into consecutive chunks of size `n` (last chunk may be
shorter), with an explicit fuel for structural recursion. -/
def chunksOfAux (n : Nat) : Nat → List α → List (List α)
  | 0, _ => []
  | _, [] => []
  | fuel + 1, x :: xs => ((x :: xs).take n) :: chunksOfAux n fuel ((x :: xs).drop n)

/-- The batches visited by `for (let i = 0; i < ids.length; i += batchSize)`
with `batch = ids.slice(i, i + batchSize)`. -/
def chunksOf (n : Nat) (l : List α) : List (List α) :=
  chunksOfAux n l.length l

theorem chunksOfAux_length_sum (n : Nat) (hn : 0 < n) :
    ∀ fuel (l : List α), l.length ≤ fuel →
      ((chunksOfAux n fuel l).map List.length).sum = l.length := by
  intro fuel
  induction fuel with
  | zero =>
      intro l hl
      have : l = [] := List.eq_nil_of_length_eq_zero (Nat.le_zero.mp hl)
      subst this; simp [chunksOfAux]
  | succ fuel ih =>
      intro l hl
      cases l with
      | nil => simp [chunksOfAux]
      | cons x xs =>
          have hdrop : ((x :: xs).drop n).length ≤ fuel := by
            simp only [List.length_drop, List.length_cons]
            simp only [List.length_cons] at hl
            omega
          simp only [chunksOfAux, List.map_cons, List.sum_cons, ih _ hdrop,
            List.length_take, List.length_drop, List.length_cons]
          omega

theorem chunksOf_length_sum (n : Nat) (hn : 0 < n) (l : List α) :
    ((chunksOf n l).map List.length).sum = l.length :=
  chunksOfAux_length_sum n hn l.length l (Nat.le_refl _)

/-! ### The processing loop of `BulkJobProcessor.processJob` -/

/-- Loop-local accumulator of `processJob`: the running
`processedCount` / `successCount` / `failureCount` totals, the collected
error descriptors (`allErrors`), and the trace of `processedCount` values
persisted by the per-batch `storage.updateBulkJob(jobId, { processedCount })`
calls (the catch branch persists nothing). -/
structure LoopAcc where
  processedCount : Nat
  successCount : Nat
  failureCount : Nat
  allErrors : List String
  progressUpdates : List Nat
deriving DecidableEq, Repr

def initAcc : LoopAcc :=
  { processedCount := 0, successCount := 0, failureCount := 0,
    allErrors := [], progressUpdates := [] }

/-- `Product ${ue.productId}: ${ue.message} (field: ${ue.field})`. -/
def formatUserError (ue : UserError) : String :=
  "Product " ++ ue.productId ++ ": " ++ ue.message ++ " (field: " ++ ue.field ++ ")"

/-- `Product ${e.productId}: ${e.error}`. -/
def formatApiError (e : ApiError) : String :=
  "Product " ++ e.productId ++ ": " ++ e.error

/-- The external bulk call made for one batch, as seen by `processJob`'s
try/catch: either a returned `BulkUpdateResult` or a thrown error message. -/
abbrev BulkCall := List String → Except String BulkUpdateResult

/-- One iteration of the batch loop in `processJob` (src/unnamed/part_002
lines 82-146): on a returned result, add its success/failure counts, extend
`allErrors` with formatted user errors then API errors, and persist the new
`processedCount`; on a thrown batch-level error, count the whole batch as
failed, record a `Batch N: msg` descriptor, and persist nothing.
`idx` is the 0-based batch index (`Math.floor(i / batchSize)`). -/
def processBatch (callBulk : BulkCall) (idx : Nat) (acc : LoopAcc)
    (batch : List String) : LoopAcc :=
  match callBulk batch with
  | .ok r =>
      { processedCount := acc.processedCount + batch.length
        successCount := acc.successCount + r.successCount
        failureCount := acc.failureCount + r.failureCount
        allErrors := acc.allErrors ++ r.userErrors.map formatUserError
          ++ r.errors.map formatApiError
        progressUpdates := acc.progressUpdates ++ [acc.processedCount + batch.length] }
  | .error msg =>
      { processedCount := acc.processedCount + batch.length
        successCount := acc.successCount
        failureCount := acc.failureCount + batch.length
        allErrors := acc.allErrors ++ ["Batch " ++ toString (idx + 1) ++ ": " ++ msg]
        progressUpdates := acc.progressUpdates }

/-- The whole batch loop, in order. -/
def runBatches (callBulk : BulkCall) : Nat → LoopAcc → List (List String) → LoopAcc
  | _, acc, [] => acc
  | idx, acc, b :: rest =>
      runBatches callBulk (idx + 1) (processBatch callBulk idx acc b) rest

/-- The bounded error digest persisted at job completion:
`allErrors.slice(0, 5)` joined, prefixed by the total `failureCount`, with a
`...` marker when more than 5 errors were collected. -/
structure ErrorDigest where
  totalFailed : Nat
  storedErrors : List String
  truncated : Bool
deriving DecidableEq, Repr

/-- Digest construction from `processJob`'s completion write
(src/unnamed/part_002 lines 151-153). -/
def mkErrorDigest (failureCount : Nat) (allErrors : List String) : ErrorDigest :=
  { totalFailed := failureCount
    storedErrors := allErrors.take 5
    truncated := decide (5 < allErrors.length) }

/-- Rendering of the digest into the persisted `errorMessage` string. -/
def renderDigest (d : ErrorDigest) : String :=
  toString d.totalFailed ++ " products failed. Errors: " ++
    String.intercalate "; " d.storedErrors ++ (if d.truncated then "..." else "")

/-- `const batchSize = 10` in src/unnamed/part_002. -/
def jobBatchSize : Nat := 10

/-- Observable outcome of one `processJob` run: the successive persisted job
records (`updates`, ending with the final write), the final record, the loop
aggregates, and the digest (when any errors were collected). -/
structure ProcessRun where
  updates : List JobRecord
  finalJob : JobRecord
  successCount : Nat
  failureCount : Nat
  allErrors : List String
  digest : Option ErrorDigest
deriving Repr

/-- `BulkJobProcessor.processJob` (src/unnamed/part_002 lines 43-194), for a
job already claimed by the guard.  `hasToken` is the credential lookup
(`shopSettings?.accessToken` present); when it is false the outer catch
marks the job FAILED with the descriptive message without touching
`processedCount`.  Otherwise the batch loop runs to completion and the final
status is SUCCESS exactly when the accumulated `failureCount` is 0. -/
def processJob (job : JobRecord) (hasToken : Bool) (callBulk : BulkCall)
    (now : Nat) : ProcessRun :=
  let running : JobRecord := { job with status := .RUNNING }
  if hasToken then
    let acc := runBatches callBulk 0 initAcc (chunksOf jobBatchSize job.productIds)
    let digest : Option ErrorDigest :=
      if acc.allErrors.length > 0 then some (mkErrorDigest acc.failureCount acc.allErrors)
      else none
    let finalStatus : JobStatus := if acc.failureCount = 0 then .SUCCESS else .FAILED
    let finalJob : JobRecord :=
      { running with status := finalStatus, processedCount := acc.processedCount,
                     errorMessage := digest.map renderDigest, completedAt := some now }
    { updates := running ::
        (acc.progressUpdates.map (fun p => { running with processedCount := p })
          ++ [finalJob])
      finalJob := finalJob
      successCount := acc.successCount
      failureCount := acc.failureCount
      allErrors := acc.allErrors
      digest := digest }
  else
    let finalJob : JobRecord :=
      { running with status := .FAILED,
                     errorMessage := some "Shop access token not found",
                     completedAt := some now }
    { updates := [running, finalJob], finalJob := finalJob,
      successCount := 0, failureCount := 0, allErrors := [], digest := none }

/-- `BulkJobProcessor.retryJob` (src/unnamed/part_002 lines 196-223): throws
on a RUNNING job; otherwise writes status PENDING, `processedCount = 0`,
and clears `errorMessage` / `completedAt` (the subsequent re-invocation of
`processJob` is separate). -/
def retryJob (job : JobRecord) : Except String JobRecord :=
  if job.status = .RUNNING then
    .error "Job is currently running"
  else
    .ok { job with status := .PENDING, processedCount := 0,
                   errorMessage := none, completedAt := none }

/-- `BulkJobProcessor.cancelJob` (src/unnamed/part_002 lines 225-243):
throws unless the status is RUNNING or PENDING; otherwise deletes the job id
from the in-flight guard set (the returned Bool is the guard membership
afterwards) and writes status FAILED with the cancellation message and an
immediate `completedAt`. -/
def cancelJob (job : JobRecord) (inGuard : Bool) (now : Nat) :
    Except String (JobRecord × Bool) :=
  if job.status ≠ .RUNNING ∧ job.status ≠ .PENDING then
    .error "Job cannot be cancelled in current status"
  else
    .ok ({ job with status := .FAILED,
                    errorMessage := some "Job cancelled by user",
                    completedAt := some now }, false)

/-! ### Aggregates of the batch loop -/

/-- Failures contributed by one batch: the returned `failureCount`, or the
whole batch size when the call threw. -/
def batchFailures (callBulk : BulkCall) (batch : List String) : Nat :=
  match callBulk batch with
  | .ok r => r.failureCount
  | .error _ => batch.length

/-- Successes contributed by one batch. -/
def batchSuccesses (callBulk : BulkCall) (batch : List String) : Nat :=
  match callBulk batch with
  | .ok r => r.successCount
  | .error _ => 0

/-- The aggregate failure count across all batches of a job's item list. -/
def aggregateFailures (callBulk : BulkCall) (ids : List String) : Nat :=
  ((chunksOf jobBatchSize ids).map (batchFailures callBulk)).sum

/-- The aggregate success count across all batches of a job's item list. -/
def aggregateSuccesses (callBulk : BulkCall) (ids : List String) : Nat :=
  ((chunksOf jobBatchSize ids).map (batchSuccesses callBulk)).sum

theorem runBatches_failureCount (cb : BulkCall) :
    ∀ (l : List (List String)) (idx : Nat) (acc : LoopAcc),
      (runBatches cb idx acc l).failureCount
        = acc.failureCount + (l.map (batchFailures cb)).sum := by
  intro l
  induction l with
  | nil => intro idx acc; simp [runBatches]
  | cons b rest ih =>
      intro idx acc
      simp only [runBatches, List.map_cons, List.sum_cons, ih]
      unfold processBatch batchFailures
      cases cb b <;> simp <;> omega

theorem runBatches_successCount (cb : BulkCall) :
    ∀ (l : List (List String)) (idx : Nat) (acc : LoopAcc),
      (runBatches cb idx acc l).successCount
        = acc.successCount + (l.map (batchSuccesses cb)).sum := by
  intro l
  induction l with
  | nil => intro idx acc; simp [runBatches]
  | cons b rest ih =>
      intro idx acc
      simp only [runBatches, List.map_cons, List.sum_cons, ih]
      unfold processBatch batchSuccesses
      cases cb b <;> simp <;> omega

theorem runBatches_processedCount (cb : BulkCall) :
    ∀ (l : List (List String)) (idx : Nat) (acc : LoopAcc),
      (runBatches cb idx acc l).processedCount
        = acc.processedCount + (l.map List.length).sum := by
  intro l
  induction l with
  | nil => intro idx acc; simp [runBatches]
  | cons b rest ih =>
      intro idx acc
      simp only [runBatches, List.map_cons, List.sum_cons, ih]
      unfold processBatch
      cases cb b <;> simp <;> omega

/-- C1: for every job whose processing loop runs to completion (credentials
present, every batch handled by the loop's own try/catch), the final
persisted status is SUCCESS iff the aggregate failure count across all
batches is zero; the accumulated failure count the status is derived from
equals that aggregate, and the per-item success count is still accumulated
(it equals the aggregate success sum) even when the job is FAILED. -/
theorem C1_final_status_success_iff_zero_failures (job : JobRecord)
    (callBulk : BulkCall) (now : Nat) :
    ((processJob job true callBulk now).finalJob.status = .SUCCESS ↔
      aggregateFailures callBulk job.productIds = 0) ∧
    (processJob job true callBulk now).failureCount
      = aggregateFailures callBulk job.productIds ∧
    (processJob job true callBulk now).successCount
      = aggregateSuccesses callBulk job.productIds := by
  have hf : (runBatches callBulk 0 initAcc (chunksOf jobBatchSize job.productIds)).failureCount
      = aggregateFailures callBulk job.productIds := by
    rw [runBatches_failureCount]; simp [initAcc, aggregateFailures]
  have hs : (runBatches callBulk 0 initAcc (chunksOf jobBatchSize job.productIds)).successCount
      = aggregateSuccesses callBulk job.productIds := by
    rw [runBatches_successCount]; simp [initAcc, aggregateSuccesses]
  refine ⟨?_, ?_, ?_⟩
  · simp only [processJob, if_true]
    rw [hf]
    by_cases h : aggregateFailures callBulk job.productIds = 0
    · simp [h]
    · simp [h]
  · simp only [processJob, if_true]; exact hf
  · simp only [processJob, if_true]; exact hs

/-! ### Monotonicity of persisted processedCount (C2) -/

/-- Invariant of the batch loop: the persisted progress values are
non-decreasing and all bounded by the running `processedCount`. -/
def ProgressInv (acc : LoopAcc) : Prop :=
  List.Sorted (· ≤ ·) acc.progressUpdates ∧
    ∀ x ∈ acc.progressUpdates, x ≤ acc.processedCount

theorem processBatch_inv (cb : BulkCall) (idx : Nat) (acc : LoopAcc)
    (b : List String) (h : ProgressInv acc) :
    ProgressInv (processBatch cb idx acc b) := by
  obtain ⟨hsort, hbound⟩ := h
  cases hcb : cb b with
  | ok r =>
      simp only [ProgressInv, processBatch, hcb]
      constructor
      · simp only [List.Sorted]
        rw [List.pairwise_append]
        refine ⟨hsort, List.pairwise_singleton _ _, ?_⟩
        intro x hx y hy
        simp only [List.mem_singleton] at hy
        subst hy
        exact Nat.le_trans (hbound x hx) (Nat.le_add_right _ _)
      · intro x hx
        simp only [List.mem_append, List.mem_singleton] at hx
        rcases hx with hx | hx
        · exact Nat.le_trans (hbound x hx) (Nat.le_add_right _ _)
        · simp [hx]
  | error msg =>
      simp only [ProgressInv, processBatch, hcb]
      refine ⟨hsort, fun x hx => ?_⟩
      exact Nat.le_trans (hbound x hx) (Nat.le_add_right _ _)

theorem runBatches_inv (cb : BulkCall) :
    ∀ (l : List (List String)) (idx : Nat) (acc : LoopAcc),
      ProgressInv acc → ProgressInv (runBatches cb idx acc l) := by
  intro l
  induction l with
  | nil => intro idx acc h; exact h
  | cons b rest ih =>
      intro idx acc h
      exact ih (idx + 1) _ (processBatch_inv cb idx acc b h)

/-- C2 (amended): for a job entering the loop with `processedCount = 0` (as
`createJob` and `retryJob` guarantee) and `totalCount` equal to the item
list length, the sequence of persisted `processedCount` values over a full
`processJob` run is non-decreasing, and the completion write sets
`processedCount = totalCount`; `cancelJob` never changes `processedCount`.
(The original claim's "terminal status implies processedCount = totalCount"
fails for cancelled jobs, see the counterexample.) -/
theorem C2_processed_count_monotone (job : JobRecord) (callBulk : BulkCall)
    (now : Nat) (h0 : job.processedCount = 0)
    (htot : job.totalCount = job.productIds.length) :
    List.Sorted (· ≤ ·)
      ((processJob job true callBulk now).updates.map JobRecord.processedCount) ∧
    (processJob job true callBulk now).finalJob.processedCount = job.totalCount ∧
    (∀ (j j' : JobRecord) (g g' : Bool) (t : Nat),
      cancelJob j g t = .ok (j', g') → j'.processedCount = j.processedCount) := by
  have hinv : ProgressInv (runBatches callBulk 0 initAcc (chunksOf jobBatchSize job.productIds)) := by
    apply runBatches_inv
    exact ⟨List.sorted_nil, by intro x hx; simp [initAcc] at hx⟩
  obtain ⟨hsort, hbound⟩ := hinv
  have hproc : (runBatches callBulk 0 initAcc (chunksOf jobBatchSize job.productIds)).processedCount
      = job.productIds.length := by
    rw [runBatches_processedCount]
    simp [initAcc, chunksOf_length_sum jobBatchSize (by decide) job.productIds]
  refine ⟨?_, ?_, ?_⟩
  · simp only [processJob, if_true, List.map_cons, List.map_nil, List.map_append,
      List.map_map]
    have hcomp : (JobRecord.processedCount ∘ fun p =>
        ({ job with status := JobStatus.RUNNING, processedCount := p } : JobRecord))
        = id := rfl
    rw [hcomp, List.map_id]
    simp only [List.Sorted, List.pairwise_cons]
    constructor
    · intro a _
      show job.processedCount ≤ a
      rw [h0]
      exact Nat.zero_le a
    · rw [List.pairwise_append]
      refine ⟨hsort, List.pairwise_singleton _ _, ?_⟩
      intro x hx y hy
      simp only [List.mem_singleton] at hy
      subst hy
      exact hbound x hx
  · simp only [processJob, if_true]
    simpa [htot] using hproc
  · intro j j' g g' t h
    unfold cancelJob at h
    by_cases hc : j.status ≠ .RUNNING ∧ j.status ≠ .PENDING
    · simp [hc] at h
    · simp [hc] at h
      rw [← h.1]

/-- Fresh PENDING job used in the C2 counterexample. -/
def c2Job : JobRecord :=
  { status := .PENDING, productIds := ["a", "b", "c", "d", "e"],
    targetVendor := "v", totalCount := 5, processedCount := 0,
    errorMessage := none, completedAt := none }

/-- C2 (counterexample to the original claim): cancelling a PENDING job with
5 items succeeds and persists the terminal status FAILED while
`processedCount` stays 0 ≠ 5 = `totalCount`, so a terminal status does not
imply `processedCount = totalCount`. -/
theorem C2_counterexample_cancel_terminal_incomplete :
    cancelJob c2Job false 100 =
      .ok ({ c2Job with status := .FAILED,
                        errorMessage := some "Job cancelled by user",
                        completedAt := some 100 }, false) ∧
    ({ c2Job with status := .FAILED,
                  errorMessage := some "Job cancelled by user",
                  completedAt := some 100 } : JobRecord).status = .FAILED ∧
    ({ c2Job with status := .FAILED,
                  errorMessage := some "Job cancelled by user",
                  completedAt := some 100 } : JobRecord).processedCount = 0 ∧
    ({ c2Job with status := .FAILED,
                  errorMessage := some "Job cancelled by user",
                  completedAt := some 100 } : JobRecord).totalCount = 5 :=
  ⟨rfl, rfl, rfl, rfl⟩

/-- All-successful bulk call used in the C2 witness. -/
def cbAllOk : BulkCall := fun b =>
  .ok { successCount := b.length, failureCount := 0, errors := [], userErrors := [] }

/-- Single-item PENDING job used in the C2 witness. -/
def c2wJob : JobRecord :=
  { status := .PENDING, productIds := ["a"], targetVendor := "v",
    totalCount := 1, processedCount := 0, errorMessage := none, completedAt := none }

theorem C2_processed_count_monotone_witness :
    c2wJob.processedCount = 0 ∧ c2wJob.totalCount = c2wJob.productIds.length ∧
    (List.Sorted (· ≤ ·)
      ((processJob c2wJob true cbAllOk 0).updates.map JobRecord.processedCount) ∧
     (processJob c2wJob true cbAllOk 0).finalJob.processedCount = c2wJob.totalCount ∧
     (∀ (j j' : JobRecord) (g g' : Bool) (t : Nat),
       cancelJob j g t = .ok (j', g') → j'.processedCount = j.processedCount)) :=
  ⟨rfl, rfl, C2_processed_count_monotone c2wJob cbAllOk 0 rfl rfl⟩

/-! ### retryJob (C6) and cancelJob (C7) -/

/-- C6: `retryJob` fails (throwing, so mutating nothing) exactly when the
job is RUNNING; from any other status it resets `processedCount` to 0,
clears the error digest and `completedAt`, and sets status PENDING, while
`totalCount`, the item list and the target value are unchanged. -/
theorem C6_retry_conflict_and_reset (j : JobRecord) :
    (j.status = .RUNNING → retryJob j = .error "Job is currently running") ∧
    (j.status ≠ .RUNNING →
      retryJob j = .ok { j with status := .PENDING, processedCount := 0,
                                errorMessage := none, completedAt := none }) ∧
    (∀ j', retryJob j = .ok j' →
      j'.totalCount = j.totalCount ∧ j'.productIds = j.productIds ∧
      j'.targetVendor = j.targetVendor) := by
  refine ⟨?_, ?_, ?_⟩
  · intro h; simp [retryJob, h]
  · intro h; simp [retryJob, h]
  · intro j' h
    unfold retryJob at h
    by_cases hs : j.status = .RUNNING
    · simp [hs] at h
    · simp [hs] at h
      rw [← h]
      exact ⟨rfl, rfl, rfl⟩

/-- RUNNING job used in the C6 witness. -/
def c6Running : JobRecord :=
  { status := .RUNNING, productIds := ["a"], targetVendor := "v",
    totalCount := 1, processedCount := 0, errorMessage := none, completedAt := none }

/-- Terminal job used in the C6 witness. -/
def c6Done : JobRecord :=
  { status := .FAILED, productIds := ["a", "b"], targetVendor := "v",
    totalCount := 2, processedCount := 2,
    errorMessage := some "2 products failed. Errors: x", completedAt := some 9 }

theorem C6_retry_conflict_and_reset_witness :
    (c6Running.status = .RUNNING ∧
      retryJob c6Running = .error "Job is currently running") ∧
    (c6Done.status ≠ .RUNNING ∧
      retryJob c6Done = .ok { c6Done with status := .PENDING, processedCount := 0,
                                          errorMessage := none, completedAt := none }) :=
  ⟨⟨rfl, (C6_retry_conflict_and_reset c6Running).1 rfl⟩,
   ⟨by decide, (C6_retry_conflict_and_reset c6Done).2.1 (by decide)⟩⟩

/-- C7: `cancelJob` fails (throwing, so mutating nothing) exactly when the
job's status is neither PENDING nor RUNNING; otherwise it removes the job
from the in-flight guard (the returned guard flag is false), sets status
FAILED with the cancellation-reason message, and sets `completedAt`
immediately. -/
theorem C7_cancel_conflict_and_fail (j : JobRecord) (g : Bool) (now : Nat) :
    (j.status ≠ .PENDING ∧ j.status ≠ .RUNNING →
      cancelJob j g now = .error "Job cannot be cancelled in current status") ∧
    (j.status = .PENDING ∨ j.status = .RUNNING →
      cancelJob j g now =
        .ok ({ j with status := .FAILED,
                      errorMessage := some "Job cancelled by user",
                      completedAt := some now }, false)) := by
  constructor
  · intro h
    have hc : j.status ≠ .RUNNING ∧ j.status ≠ .PENDING := ⟨h.2, h.1⟩
    simp [cancelJob, hc]
  · intro h
    have hc : ¬(j.status ≠ .RUNNING ∧ j.status ≠ .PENDING) := by
      rcases h with h | h <;> simp [h]
    simp [cancelJob, hc]

/-- SUCCESS (terminal) job used in the C7 witness. -/
def c7Done : JobRecord :=
  { status := .SUCCESS, productIds := ["a"], targetVendor := "v",
    totalCount := 1, processedCount := 1, errorMessage := none, completedAt := some 3 }

/-- RUNNING job used in the C7 witness. -/
def c7Running : JobRecord :=
  { status := .RUNNING, productIds := ["a"], targetVendor := "v",
    totalCount := 1, processedCount := 0, errorMessage := none, completedAt := none }

theorem C7_cancel_conflict_and_fail_witness :
    ((c7Done.status ≠ .PENDING ∧ c7Done.status ≠ .RUNNING) ∧
      cancelJob c7Done true 5 = .error "Job cannot be cancelled in current status") ∧
    ((c7Running.status = .PENDING ∨ c7Running.status = .RUNNING) ∧
      cancelJob c7Running true 5 =
        .ok ({ c7Running with status := .FAILED,
                              errorMessage := some "Job cancelled by user",
                              completedAt := some 5 }, false)) :=
  ⟨⟨by decide, (C7_cancel_conflict_and_fail c7Done true 5).1 (by decide)⟩,
   ⟨by decide, (C7_cancel_conflict_and_fail c7Running true 5).2 (by decide)⟩⟩

/-! ### Bounded error digest (C8) -/

/-- C8 (amended): for every completed run, when a digest is produced it
stores at most 5 error strings regardless of how many errors occurred, its
numeric count is the total `failureCount` of the run (not the number of
suppressed errors), and its truncation marker is set exactly when more than
5 errors were collected. -/
theorem C8_digest_bounded (job : JobRecord) (callBulk : BulkCall) (now : Nat) :
    ∀ d : ErrorDigest, (processJob job true callBulk now).digest = some d →
      d.storedErrors.length ≤ 5 ∧
      d.totalFailed = (processJob job true callBulk now).failureCount ∧
      (d.truncated = true ↔ 5 < (processJob job true callBulk now).allErrors.length) := by
  intro d hd
  simp only [processJob, if_true] at hd ⊢
  by_cases he : (runBatches callBulk 0 initAcc (chunksOf jobBatchSize job.productIds)).allErrors.length > 0
  · simp only [he, if_true, Option.some.injEq] at hd
    subst hd
    refine ⟨?_, rfl, ?_⟩
    · simp [mkErrorDigest, List.length_take]
    · simp [mkErrorDigest]
  · simp [he] at hd

/-- Seven-item job whose every item throws, used against C8 and as its
witness input: it yields 7 collected errors, of which 2 are suppressed. -/
def c8Job : JobRecord :=
  { status := .PENDING,
    productIds := ["pa", "pb", "pc", "pd", "pe", "pf", "pg"],
    targetVendor := "v", totalCount := 7, processedCount := 0,
    errorMessage := none, completedAt := none }

/-- Oracle that makes every per-item call throw with message `boom`. -/
def c8Oracle : ItemOracle := fun _ => .error "boom"

/-- The C8 run: one batch of 7 items, all failing as transport errors. -/
def c8Run : ProcessRun :=
  processJob c8Job true (fun b => .ok (bulkUpdateVendor c8Oracle b)) 0

/-- C8 (counterexample to the original claim): in a run collecting 7 errors
(so 2 are suppressed beyond the 5 stored), the persisted digest carries the
total failure count 7 — not the suppressed-remainder count 2.  The decimal
digit 2 appears nowhere in the persisted `errorMessage` string, and the
digest's only numeric field is 7. -/
theorem C8_counterexample_no_suppressed_count :
    c8Run.allErrors.length = 7 ∧
    c8Run.allErrors.length - 5 = 2 ∧
    c8Run.digest.map ErrorDigest.totalFailed = some 7 ∧
    c8Run.digest.map (fun d => d.storedErrors.length) = some 5 ∧
    ((c8Run.finalJob.errorMessage.getD "").toList.contains '2') = false := by
  refine ⟨?_, ?_, ?_, ?_, ?_⟩ <;> decide

theorem C8_digest_bounded_witness :
    (processJob c8Job true (fun b => .ok (bulkUpdateVendor c8Oracle b)) 0).digest
      = some (mkErrorDigest 7
          ((processJob c8Job true (fun b => .ok (bulkUpdateVendor c8Oracle b)) 0).allErrors)) ∧
    ((mkErrorDigest 7
        ((processJob c8Job true (fun b => .ok (bulkUpdateVendor c8Oracle b)) 0).allErrors)).storedErrors.length ≤ 5 ∧
     (mkErrorDigest 7
        ((processJob c8Job true (fun b => .ok (bulkUpdateVendor c8Oracle b)) 0).allErrors)).totalFailed
       = (processJob c8Job true (fun b => .ok (bulkUpdateVendor c8Oracle b)) 0).failureCount ∧
     ((mkErrorDigest 7
        ((processJob c8Job true (fun b => .ok (bulkUpdateVendor c8Oracle b)) 0).allErrors)).truncated = true ↔
       5 < (processJob c8Job true (fun b => .ok (bulkUpdateVendor c8Oracle b)) 0).allErrors.length)) :=
  ⟨by decide,
   C8_digest_bounded c8Job (fun b => .ok (bulkUpdateVendor c8Oracle b)) 0 _ (by decide)⟩

/-! ### The 25-item scenario (C9) -/

/-- The 25 item identifiers `p1` … `p25` of the scenario. -/
def c9Ids : List String :=
  (List.range 25).map (fun i => "p" ++ toString (i + 1))

/-- Oracle for the scenario: item #13 (`p13`) fails validation with one
user error; every other item succeeds. -/
def c9Oracle : ItemOracle := fun pid =>
  if pid = "p13" then .ok [{ field := "vendor", message := "invalid vendor" }]
  else .ok []

/-- The scenario job: 25 items, fresh PENDING record. -/
def c9Job : JobRecord :=
  { status := .PENDING, productIds := c9Ids, targetVendor := "v",
    totalCount := 25, processedCount := 0, errorMessage := none, completedAt := none }

/-- The scenario run of `processJob` over the real `bulkUpdateVendor`. -/
def c9Run : ProcessRun :=
  processJob c9Job true (fun b => .ok (bulkUpdateVendor c9Oracle b)) 7

/-- C9: the 25 items are partitioned into batches of sizes 10, 10, 5 in
order; with exactly item #13 failing validation, the final job has
`processedCount = 25`, aggregate `failureCount = 1`, status FAILED, and an
error digest whose stored errors are exactly the single entry referencing
`p13`. -/
theorem C9_scenario_25_items :
    (chunksOf jobBatchSize c9Ids).map List.length = [10, 10, 5] ∧
    c9Run.finalJob.processedCount = 25 ∧
    c9Run.failureCount = 1 ∧
    c9Run.finalJob.status = .FAILED ∧
    c9Run.allErrors = ["Product p13: invalid vendor (field: vendor)"] ∧
    c9Run.digest = some { totalFailed := 1,
                          storedErrors := ["Product p13: invalid vendor (field: vendor)"],
                          truncated := false } := by
  refine ⟨?_, ?_, ?_, ?_, ?_, ?_⟩ <;> decide

/-! ### RateLimiter (src/server/middleware/rate-limit.ts) -/

/-- `RateLimitConfig`: the `(windowMs, maxRequests)` pair of one limiter. -/
structure RateLimitConfig where
  windowMs : Nat
  maxRequests : Nat
deriving Repr

/-- `RequestLog`: the per-key fixed window (count, reset timestamp in ms). -/
structure RequestLog where
  count : Nat
  resetTime : Nat
deriving DecidableEq, Repr

/-- The response produced by one pass of the middleware: a 429 with a
`retryAfter` value in seconds, or admission with the remaining-quota and
reset-time headers. -/
inductive LimitOutcome where
  | rejected (retryAfter : Nat)
  | allowed (remaining : Nat) (reset : Nat)
deriving DecidableEq, Repr

/-- One pass of `RateLimiter.middleware()` for `key` at time `now` (ms):
lazily create or hard-reset the window when absent or expired, increment
the stored count (also when rejecting), and reject with
`retryAfter = Math.ceil((resetTime - now) / 1000)` once the incremented
count exceeds `maxRequests`; otherwise admit and expose
`max(0, maxRequests - count)` and `Math.ceil(resetTime / 1000)`. -/
def rateLimitCheck (cfg : RateLimitConfig) (requests : String → Option RequestLog)
    (key : String) (now : Nat) : LimitOutcome × (String → Option RequestLog) :=
  let current : RequestLog :=
    match requests key with
    | some log =>
        if log.resetTime ≤ now then { count := 0, resetTime := now + cfg.windowMs }
        else log
    | none => { count := 0, resetTime := now + cfg.windowMs }
  let bumped : RequestLog := { current with count := current.count + 1 }
  let requests' : String → Option RequestLog :=
    fun k => if k = key then some bumped else requests k
  let outcome : LimitOutcome :=
    if bumped.count > cfg.maxRequests then
      .rejected ((bumped.resetTime - now + 999) / 1000)
    else
      .allowed (cfg.maxRequests - bumped.count) ((bumped.resetTime + 999) / 1000)
  (outcome, requests')

/-- The initial (empty) window map of a limiter instance. -/
def noRequests : String → Option RequestLog := fun _ => none

/-- The window map after the first `n` calls for `key`, the `i`-th call
arriving at time `t i` (1-based). -/
def callSeqState (cfg : RateLimitConfig) (t : Nat → Nat) (key : String) :
    Nat → (String → Option RequestLog)
  | 0 => noRequests
  | n + 1 => (rateLimitCheck cfg (callSeqState cfg t key n) key (t (n + 1))).2

/-- The middleware outcome of the `n`-th call (1-based). -/
def callOutcome (cfg : RateLimitConfig) (t : Nat → Nat) (key : String)
    (n : Nat) : LimitOutcome :=
  (rateLimitCheck cfg (callSeqState cfg t key (n - 1)) key (t n)).1

theorem rateLimitCheck_existing (cfg : RateLimitConfig)
    (requests : String → Option RequestLog) (key : String) (now : Nat)
    (log : RequestLog) (hlog : requests key = some log)
    (hactive : ¬ log.resetTime ≤ now) :
    (rateLimitCheck cfg requests key now).1 =
      (if log.count + 1 > cfg.maxRequests then
        LimitOutcome.rejected ((log.resetTime - now + 999) / 1000)
      else
        LimitOutcome.allowed (cfg.maxRequests - (log.count + 1))
          ((log.resetTime + 999) / 1000)) ∧
    (rateLimitCheck cfg requests key now).2 key =
      some { count := log.count + 1, resetTime := log.resetTime } := by
  simp [rateLimitCheck, hlog, hactive]

theorem rateLimitCheck_fresh (cfg : RateLimitConfig)
    (requests : String → Option RequestLog) (key : String) (now : Nat)
    (hfresh : requests key = none ∨
      ∃ log, requests key = some log ∧ log.resetTime ≤ now)
    (hN : 1 ≤ cfg.maxRequests) :
    (rateLimitCheck cfg requests key now).1 =
      LimitOutcome.allowed (cfg.maxRequests - 1) ((now + cfg.windowMs + 999) / 1000) ∧
    (rateLimitCheck cfg requests key now).2 key =
      some { count := 1, resetTime := now + cfg.windowMs } := by
  rcases hfresh with h | ⟨log, hlog, hexp⟩
  · have hadm : ¬ (1 > cfg.maxRequests) := by omega
    simp [rateLimitCheck, h, hadm]
  · have hadm : ¬ (1 > cfg.maxRequests) := by omega
    simp [rateLimitCheck, hlog, hexp, hadm]

theorem callSeqState_eq (cfg : RateLimitConfig) (t : Nat → Nat) (key : String) :
    ∀ n, 1 ≤ n → (∀ i, 1 ≤ i → i ≤ n → t i < t 1 + cfg.windowMs) →
      callSeqState cfg t key n key =
        some { count := n, resetTime := t 1 + cfg.windowMs } := by
  intro n
  induction n with
  | zero => intro h; omega
  | succ n ih =>
      intro _ ht
      cases Nat.eq_zero_or_pos n with
      | inl h0 =>
          subst h0
          have hadm : ¬ (t 1 + cfg.windowMs ≤ t 1) := by
            have := ht 1 (by omega) (by omega)
            omega
          simp only [callSeqState]
          simp [rateLimitCheck, noRequests]
      | inr hpos =>
          have hstate := ih hpos (fun i h1 h2 => ht i h1 (by omega))
          have hactive : ¬ (t 1 + cfg.windowMs ≤ t (n + 1)) := by
            have := ht (n + 1) (by omega) (by omega)
            omega
          simp only [callSeqState]
          have := rateLimitCheck_existing cfg (callSeqState cfg t key n) key
            (t (n + 1)) _ hstate hactive
          exact this.2

/-- C3: for a limiter with `maxRequests = N ≥ 1` and window `W ≥ 1` ms,
with the first `N + 1` calls for a key all arriving before the window's
reset time `t 1 + W`: each of the first `N` calls is admitted, the
`(N+1)`-th is rejected with a positive `retryAfter` equal to the time
remaining until the reset (`Math.ceil((resetAt - now) / 1000)` seconds),
and the first call at or after the reset time is admitted with the key's
stored count reset to 1 in a fresh window. -/
theorem C3_fixed_window_throttle (cfg : RateLimitConfig) (t : Nat → Nat)
    (key : String) (u : Nat)
    (hN : 1 ≤ cfg.maxRequests) (hW : 1 ≤ cfg.windowMs)
    (ht : ∀ i, 1 ≤ i → i ≤ cfg.maxRequests + 1 → t i < t 1 + cfg.windowMs)
    (hu : t 1 + cfg.windowMs ≤ u) :
    (∀ i, 1 ≤ i → i ≤ cfg.maxRequests →
      callOutcome cfg t key i =
        .allowed (cfg.maxRequests - i) ((t 1 + cfg.windowMs + 999) / 1000)) ∧
    (callOutcome cfg t key (cfg.maxRequests + 1) =
        .rejected ((t 1 + cfg.windowMs - t (cfg.maxRequests + 1) + 999) / 1000) ∧
      0 < (t 1 + cfg.windowMs - t (cfg.maxRequests + 1) + 999) / 1000) ∧
    ((rateLimitCheck cfg (callSeqState cfg t key (cfg.maxRequests + 1)) key u).1 =
        .allowed (cfg.maxRequests - 1) ((u + cfg.windowMs + 999) / 1000) ∧
      (rateLimitCheck cfg (callSeqState cfg t key (cfg.maxRequests + 1)) key u).2 key =
        some { count := 1, resetTime := u + cfg.windowMs }) := by
  have hstate : ∀ n, 1 ≤ n → n ≤ cfg.maxRequests + 1 →
      callSeqState cfg t key n key =
        some { count := n, resetTime := t 1 + cfg.windowMs } := by
    intro n h1 h2
    exact callSeqState_eq cfg t key n h1 (fun i hi1 hi2 => ht i hi1 (by omega))
  refine ⟨?_, ⟨?_, ?_⟩, ?_⟩
  · intro i h1 h2
    cases Nat.eq_or_lt_of_le h1 with
    | inl h1eq =>
        have h1eq' : i = 1 := h1eq.symm
        subst h1eq'
        have hadm : ¬ (1 > cfg.maxRequests) := by omega
        have hact : ¬ (t 1 + cfg.windowMs ≤ t 1) := by
          have := ht 1 (by omega) (by omega)
          omega
        simp only [callOutcome, Nat.sub_self, callSeqState]
        simp [rateLimitCheck, noRequests, hadm]
    | inr hgt =>
        have hst := hstate (i - 1) (by omega) (by omega)
        have hact : ¬ (t 1 + cfg.windowMs ≤ t i) := by
          have := ht i (by omega) (by omega)
          omega
        have := rateLimitCheck_existing cfg (callSeqState cfg t key (i - 1)) key
          (t i) _ hst hact
        rw [callOutcome, this.1]
        have hcnt : i - 1 + 1 = i := by omega
        have hadm : ¬ (i - 1 + 1 > cfg.maxRequests) := by omega
        simp [hadm, hcnt]
        omega
  · have hst := hstate cfg.maxRequests (by omega) (by omega)
    have hact : ¬ (t 1 + cfg.windowMs ≤ t (cfg.maxRequests + 1)) := by
      have := ht (cfg.maxRequests + 1) (by omega) (by omega)
      omega
    have heq : cfg.maxRequests + 1 - 1 = cfg.maxRequests := by omega
    have := rateLimitCheck_existing cfg (callSeqState cfg t key cfg.maxRequests) key
      (t (cfg.maxRequests + 1)) _ hst hact
    rw [callOutcome, heq, this.1]
    have hrej : cfg.maxRequests + 1 > cfg.maxRequests := by omega
    simp [hrej]
  · have hrem : t (cfg.maxRequests + 1) < t 1 + cfg.windowMs :=
      ht (cfg.maxRequests + 1) (by omega) (by omega)
    show 1 ≤ (t 1 + cfg.windowMs - t (cfg.maxRequests + 1) + 999) / 1000
    exact (Nat.le_div_iff_mul_le (by omega : 0 < 1000)).mpr (by omega)
  · have hst := hstate (cfg.maxRequests + 1) (by omega) (by omega)
    have hfresh : callSeqState cfg t key (cfg.maxRequests + 1) key = none ∨
        ∃ log, callSeqState cfg t key (cfg.maxRequests + 1) key = some log ∧
          log.resetTime ≤ u := by
      right
      exact ⟨_, hst, hu⟩
    exact rateLimitCheck_fresh cfg _ key u hfresh hN

/-- Constant call-time function used in the C3 witness. -/
def c3Times : Nat → Nat := fun _ => 5

/-- Config with a 1-second window and `maxRequests = 2` (the
`shopifyApiLimiter` instance), used in the C3 witness. -/
def c3Cfg : RateLimitConfig := { windowMs := 1000, maxRequests := 2 }

theorem C3_fixed_window_throttle_witness :
    callOutcome c3Cfg c3Times "k" 1 = .allowed 1 2 ∧
    callOutcome c3Cfg c3Times "k" 2 = .allowed 0 2 ∧
    callOutcome c3Cfg c3Times "k" 3 = .rejected 1 ∧
    (0 : Nat) < 1 ∧
    (rateLimitCheck c3Cfg (callSeqState c3Cfg c3Times "k" 3) "k" 2000).1 = .allowed 1 3 ∧
    (rateLimitCheck c3Cfg (callSeqState c3Cfg c3Times "k" 3) "k" 2000).2 "k" =
      some { count := 1, resetTime := 3000 } := by
  have h := C3_fixed_window_throttle c3Cfg c3Times "k" 2000 (by decide) (by decide)
    (fun i _ _ => by show (5 : Nat) < 5 + 1000; decide) (by decide)
  exact ⟨h.1 1 (by decide) (by decide), h.1 2 (by decide) (by decide),
    h.2.1.1, h.2.1.2, h.2.2.1, h.2.2.2⟩

/-! ### ShopifyService retry policy
(`makeGraphQLRequestWithRetry`, src/server/services/shopify.ts lines 61-116) -/

/-- An error thrown by `makeGraphQLRequest`: `httpStatus` is the status the
wrapper can parse back out of a `Shopify API error: <status> …` message
(`none` for network and GraphQL-errors failures); `retryAfterMs` is the
`(error as any).retryAfter` value attached when the status was 429 and a
`Retry-After` header was present (header seconds × 1000). -/
structure ShopifyError where
  httpStatus : Option Nat
  retryAfterMs : Option Nat
  msg : String
deriving DecidableEq, Repr

/-- The wrapper's non-retry classification: a parsed status `s` with
`400 ≤ s < 500` and `s ≠ 429` is rethrown without another attempt. -/
def nonRetryable4xx (e : ShopifyError) : Bool :=
  match e.httpStatus with
  | some s => decide (400 ≤ s) && decide (s < 500) && decide (s ≠ 429)
  | none => false

/-- `Math.pow(2, attempt - 1) * 1000 + jitter` (jitter is
`Math.random() * 500`, supplied here as an explicit value). -/
def backoffDelay (attempt : Nat) (jitterVal : Nat) : Nat :=
  2 ^ (attempt - 1) * 1000 + jitterVal

/-- Delay chosen before the next attempt: the attached `retryAfter` value
when truthy (`if (retryAfter && typeof retryAfter === 'number')` — the
number 0 is falsy in JS, so a zero value falls through to backoff),
otherwise exponential backoff with jitter. -/
def chosenDelay (e : ShopifyError) (attempt : Nat) (jitterVal : Nat) : Nat :=
  match e.retryAfterMs with
  | some T => if T ≠ 0 then T else backoffDelay attempt jitterVal
  | none => backoffDelay attempt jitterVal

/-- Observable events of one `makeGraphQLRequestWithRetry` invocation.
`throttleCheck` would mark a `RateLimiter` consultation before a dispatch;
the source dispatches straight to `fetch` via `makeGraphQLRequest`, so the
embedding never emits it — the constructor exists so that the throttling
discipline of the spec is expressible over traces. -/
inductive RetryEvent where
  | throttleCheck
  | dispatch (attempt : Nat)
  | sleep (ms : Nat)
deriving DecidableEq, Repr

/-- Final result of the retry wrapper. -/
inductive RetryResult where
  | ok (attempt : Nat)
  | err (e : ShopifyError)
deriving DecidableEq, Repr

/-- The `new Error('All retry attempts failed')` fallback. -/
def noAttemptError : ShopifyError :=
  { httpStatus := none, retryAfterMs := none, msg := "All retry attempts failed" }

/-- The `for (let attempt = 1; attempt <= maxRetries; attempt++)` loop.
`o attempt` is the outcome of the `attempt`-th `makeGraphQLRequest` call
(`none` = success); `fuel` counts the remaining iterations
(`maxRetries - attempt + 1`).  A non-retryable 4xx error and the final
attempt's error are rethrown; otherwise the loop sleeps for `chosenDelay`
and tries again. -/
def retryAux (o : Nat → Option ShopifyError) (jit : Nat → Nat) (maxRetries : Nat)
    (lastError : Option ShopifyError) :
    Nat → Nat → List RetryEvent → RetryResult × List RetryEvent
  | 0, _, events => (.err (lastError.getD noAttemptError), events)
  | fuel + 1, attempt, events =>
    let events' := events ++ [.dispatch attempt]
    match o attempt with
    | none => (.ok attempt, events')
    | some e =>
      if nonRetryable4xx e then (.err e, events')
      else if attempt = maxRetries then (.err e, events')
      else
        retryAux o jit maxRetries (some e) fuel (attempt + 1)
          (events' ++ [.sleep (chosenDelay e attempt (jit attempt))])

/-- `makeGraphQLRequestWithRetry` (default `maxRetries = 3`), returning the
final result together with the dispatch/sleep trace. -/
def makeGraphQLRequestWithRetry (o : Nat → Option ShopifyError)
    (jit : Nat → Nat) (maxRetries : Nat) : RetryResult × List RetryEvent :=
  retryAux o jit maxRetries none maxRetries 1 []

theorem retryAux_events_append (o : Nat → Option ShopifyError) (jit : Nat → Nat)
    (m : Nat) :
    ∀ (fuel : Nat) (le : Option ShopifyError) (attempt : Nat) (evs : List RetryEvent),
      (retryAux o jit m le fuel attempt evs).2
        = evs ++ (retryAux o jit m le fuel attempt []).2 := by
  intro fuel
  induction fuel with
  | zero => intro le attempt evs; simp [retryAux]
  | succ fuel ih =>
      intro le attempt evs
      simp only [retryAux]
      cases o attempt with
      | none => simp
      | some e =>
          by_cases h1 : nonRetryable4xx e
          · simp [h1]
          · by_cases h2 : attempt = m
            · simp [h1, h2]
            · simp only [h1, h2, if_false, Bool.false_eq_true, ite_false]
              rw [ih, ih (some e) (attempt + 1)
                (([] ++ [RetryEvent.dispatch attempt])
                  ++ [RetryEvent.sleep (chosenDelay e attempt (jit attempt))])]
              simp

theorem retryAux_fuel_succ (o : Nat → Option ShopifyError) (jit : Nat → Nat)
    (m : Nat) (le : Option ShopifyError) (fuel attempt : Nat)
    (evs : List RetryEvent) :
    ∃ rest, (retryAux o jit m le (fuel + 1) attempt evs).2
      = evs ++ RetryEvent.dispatch attempt :: rest := by
  simp only [retryAux]
  cases o attempt with
  | none => exact ⟨[], by simp⟩
  | some e =>
      by_cases h1 : nonRetryable4xx e
      · exact ⟨[], by simp [h1]⟩
      · by_cases h2 : attempt = m
        · exact ⟨[], by simp [h1, h2]⟩
        · refine ⟨RetryEvent.sleep (chosenDelay e attempt (jit attempt)) ::
            (retryAux o jit m (some e) fuel (attempt + 1) []).2, ?_⟩
          simp only [h1, h2, if_false, Bool.false_eq_true, ite_false]
          rw [retryAux_events_append]
          simp

theorem retryAux_fuel_pos (o : Nat → Option ShopifyError) (jit : Nat → Nat)
    (m : Nat) (le : Option ShopifyError) (fuel attempt : Nat)
    (evs : List RetryEvent) (hf : fuel ≠ 0) :
    ∃ rest, (retryAux o jit m le fuel attempt evs).2
      = evs ++ RetryEvent.dispatch attempt :: rest := by
  cases fuel with
  | zero => exact absurd rfl hf
  | succ f => exact retryAux_fuel_succ o jit m le f attempt evs

theorem retryAux_step (o : Nat → Option ShopifyError) (jit : Nat → Nat)
    (m : Nat) (le : Option ShopifyError) (fuel attempt : Nat)
    (evs : List RetryEvent) (e : ShopifyError) (h : o attempt = some e)
    (hnr : nonRetryable4xx e = false) (hm : attempt ≠ m) (hf : fuel ≠ 0) :
    retryAux o jit m le fuel attempt evs
      = retryAux o jit m (some e) (fuel - 1) (attempt + 1)
          (evs ++ [RetryEvent.dispatch attempt,
                   RetryEvent.sleep (chosenDelay e attempt (jit attempt))]) := by
  cases fuel with
  | zero => exact absurd rfl hf
  | succ f =>
      conv =>
        lhs
        rw [retryAux]
      rw [h]
      simp [hnr, hm]

theorem retryAux_last_attempt (o : Nat → Option ShopifyError) (jit : Nat → Nat)
    (m : Nat) (le : Option ShopifyError) (fuel attempt : Nat)
    (evs : List RetryEvent) (e : ShopifyError) (h : o attempt = some e)
    (hm : attempt = m) (hf : fuel ≠ 0) :
    retryAux o jit m le fuel attempt evs
      = (.err e, evs ++ [RetryEvent.dispatch attempt]) := by
  cases fuel with
  | zero => exact absurd rfl hf
  | succ f =>
      conv =>
        lhs
        rw [retryAux]
      rw [h]
      by_cases hnr : nonRetryable4xx e
      · simp [hnr]
      · simp [hnr, hm]

theorem retryAux_nonretryable (o : Nat → Option ShopifyError) (jit : Nat → Nat)
    (m : Nat) (le : Option ShopifyError) (fuel attempt : Nat)
    (evs : List RetryEvent) (e : ShopifyError) (h : o attempt = some e)
    (hnr : nonRetryable4xx e = true) (hf : fuel ≠ 0) :
    retryAux o jit m le fuel attempt evs
      = (.err e, evs ++ [RetryEvent.dispatch attempt]) := by
  cases fuel with
  | zero => exact absurd rfl hf
  | succ f =>
      conv =>
        lhs
        rw [retryAux]
      rw [h]
      simp [hnr]

/-- C4 (amended): with the code's attempt ceiling of 3 — (i) a first-attempt
response classified as a 4xx other than 429 is rethrown after exactly one
dispatch, with no sleep; (ii) a 429 carrying a positive retry-after value T
makes the next attempt wait exactly T; (iii) an error without a retry-after
value backs off `2^(attempt-1)·1000 + jitter`, doubling across consecutive
retryable failures, with the jitter bounded below 500 ms; (iv) after the
ceiling is exhausted the last error surfaces.  (The original claim's "a
retry-after value T delays the next attempt by exactly T" fails for T = 0,
which JS truthiness treats as absent — see the counterexample.) -/
theorem C4_retry_policy (o : Nat → Option ShopifyError) (jit : Nat → Nat) :
    (∀ e, o 1 = some e → nonRetryable4xx e = true →
      makeGraphQLRequestWithRetry o jit 3 = (.err e, [.dispatch 1])) ∧
    (∀ e T, o 1 = some e → e.httpStatus = some 429 → e.retryAfterMs = some T →
      0 < T →
      (makeGraphQLRequestWithRetry o jit 3).2.take 3
        = [.dispatch 1, .sleep T, .dispatch 2]) ∧
    (∀ e1 e2, o 1 = some e1 → o 2 = some e2 →
      nonRetryable4xx e1 = false → nonRetryable4xx e2 = false →
      e1.retryAfterMs = none → e2.retryAfterMs = none →
      (makeGraphQLRequestWithRetry o jit 3).2.take 5
        = [.dispatch 1, .sleep (2 ^ 0 * 1000 + jit 1), .dispatch 2,
           .sleep (2 ^ 1 * 1000 + jit 2), .dispatch 3]) ∧
    (∀ a, jit a < 500 →
      2 ^ (a - 1) * 1000 ≤ backoffDelay a (jit a) ∧
        backoffDelay a (jit a) < 2 ^ (a - 1) * 1000 + 500) ∧
    (∀ e1 e2 e3, o 1 = some e1 → o 2 = some e2 → o 3 = some e3 →
      nonRetryable4xx e1 = false → nonRetryable4xx e2 = false →
      (makeGraphQLRequestWithRetry o jit 3).1 = .err e3) := by
  refine ⟨?_, ?_, ?_, ?_, ?_⟩
  · intro e h1 hnr
    simp [makeGraphQLRequestWithRetry, retryAux, h1, hnr]
  · intro e T h1 hst hra hT
    have hnr : nonRetryable4xx e = false := by
      simp [nonRetryable4xx, hst]
    have hdelay : chosenDelay e 1 (jit 1) = T := by
      simp [chosenDelay, hra, Nat.pos_iff_ne_zero.mp hT]
    rw [makeGraphQLRequestWithRetry,
      retryAux_step o jit 3 none 3 1 [] e h1 hnr (by decide) (by decide), hdelay]
    obtain ⟨rest, hrest⟩ := retryAux_fuel_pos o jit 3 (some e) (3 - 1) 2
      ([] ++ [RetryEvent.dispatch 1, RetryEvent.sleep T]) (by decide)
    rw [hrest]
    simp [List.take]
  · intro e1 e2 h1 h2 hnr1 hnr2 hra1 hra2
    have hd1 : chosenDelay e1 1 (jit 1) = backoffDelay 1 (jit 1) := by
      simp [chosenDelay, hra1]
    have hd2 : chosenDelay e2 2 (jit 2) = backoffDelay 2 (jit 2) := by
      simp [chosenDelay, hra2]
    rw [makeGraphQLRequestWithRetry,
      retryAux_step o jit 3 none 3 1 [] e1 h1 hnr1 (by decide) (by decide), hd1,
      retryAux_step o jit 3 (some e1) (3 - 1) 2 _ e2 h2 hnr2 (by decide) (by decide),
      hd2]
    obtain ⟨rest, hrest⟩ := retryAux_fuel_pos o jit 3 (some e2) (3 - 1 - 1) 3
      ([] ++ [RetryEvent.dispatch 1, RetryEvent.sleep (backoffDelay 1 (jit 1))]
        ++ [RetryEvent.dispatch 2, RetryEvent.sleep (backoffDelay 2 (jit 2))])
      (by decide)
    rw [hrest]
    simp [List.take, backoffDelay]
  · intro a hj
    unfold backoffDelay
    omega
  · intro e1 e2 e3 h1 h2 h3 hnr1 hnr2
    rw [makeGraphQLRequestWithRetry,
      retryAux_step o jit 3 none 3 1 [] e1 h1 hnr1 (by decide) (by decide),
      retryAux_step o jit 3 (some e1) (3 - 1) 2 _ e2 h2 hnr2 (by decide) (by decide),
      retryAux_last_attempt o jit 3 (some e2) (3 - 1 - 1) 3 _ e3 h3 rfl (by decide)]

/-- Outcome function of the C4 counterexample: the first attempt throws a
429 whose attached retry-after value is 0 (a `Retry-After: 0` header), and
the second attempt succeeds. -/
def c4zOutcomes : Nat → Option ShopifyError := fun a =>
  if a = 1 then
    some { httpStatus := some 429, retryAfterMs := some 0,
           msg := "Shopify API error: 429 Too Many Requests" }
  else none

/-- Zero jitter, used to make counterexample delays exact. -/
def zeroJit : Nat → Nat := fun _ => 0

/-- C4 (counterexample to the original claim): a 429 response carrying the
retry-after value T = 0 does not delay the next attempt by T — the numeric
value 0 is falsy in `if (retryAfter && …)`, so the wrapper sleeps the
1000 ms backoff instead of 0 ms. -/
theorem C4_counterexample_zero_retry_after :
    (makeGraphQLRequestWithRetry c4zOutcomes zeroJit 3).2
      = [.dispatch 1, .sleep 1000, .dispatch 2] ∧
    (makeGraphQLRequestWithRetry c4zOutcomes zeroJit 3).2 ≠
      [.dispatch 1, .sleep 0, .dispatch 2] := by
  exact ⟨by decide, by decide⟩

/-- Outcome function of the C4 witness: first attempt throws a 429 with
retry-after 7000 ms, second attempt succeeds. -/
def c4wOutcomes : Nat → Option ShopifyError := fun a =>
  if a = 1 then
    some { httpStatus := some 429, retryAfterMs := some 7000,
           msg := "Shopify API error: 429 Too Many Requests" }
  else none

/-- Outcome function of the C4 witness, non-retryable case: a 404. -/
def c4nOutcomes : Nat → Option ShopifyError := fun a =>
  if a = 1 then
    some { httpStatus := some 404, retryAfterMs := none,
           msg := "Shopify API error: 404 Not Found" }
  else none

theorem C4_retry_policy_witness :
    makeGraphQLRequestWithRetry c4nOutcomes zeroJit 3
      = (.err { httpStatus := some 404, retryAfterMs := none,
                msg := "Shopify API error: 404 Not Found" }, [.dispatch 1]) ∧
    (makeGraphQLRequestWithRetry c4wOutcomes zeroJit 3).2.take 3
      = [.dispatch 1, .sleep 7000, .dispatch 2] :=
  ⟨(C4_retry_policy c4nOutcomes zeroJit).1 _ rfl (by decide),
   (C4_retry_policy c4wOutcomes zeroJit).2.1 _ 7000 rfl rfl rfl (by decide)⟩

/-! ### Throttling of retry dispatches (C5) -/

/-- Number of `throttleCheck` events in a trace. -/
def countThrottleChecks : List RetryEvent → Nat
  | [] => 0
  | .throttleCheck :: rest => countThrottleChecks rest + 1
  | _ :: rest => countThrottleChecks rest

/-- Number of `dispatch` events in a trace. -/
def countDispatches : List RetryEvent → Nat
  | [] => 0
  | .dispatch _ :: rest => countDispatches rest + 1
  | _ :: rest => countDispatches rest

/-- Decides "every retry attempt (dispatch of attempt ≥ 2) has passed a
throttle check since the previous dispatch" over a trace. -/
def retriesThrottledAux : List RetryEvent → Bool → Bool
  | [], _ => true
  | .throttleCheck :: rest, _ => retriesThrottledAux rest true
  | .dispatch a :: rest, seen => (decide (a < 2) || seen) && retriesThrottledAux rest false
  | .sleep _ :: rest, seen => retriesThrottledAux rest seen

/-- The C5 property as stated: no retry dispatch bypasses the throttle. -/
def retriesThrottled (evs : List RetryEvent) : Bool :=
  retriesThrottledAux evs false

theorem countThrottleChecks_append (l₁ l₂ : List RetryEvent) :
    countThrottleChecks (l₁ ++ l₂)
      = countThrottleChecks l₁ + countThrottleChecks l₂ := by
  induction l₁ with
  | nil => simp [countThrottleChecks]
  | cons e rest ih =>
      cases e <;> simp [countThrottleChecks, ih] <;> omega

theorem retryAux_no_throttle (o : Nat → Option ShopifyError) (jit : Nat → Nat)
    (m : Nat) :
    ∀ (fuel : Nat) (le : Option ShopifyError) (attempt : Nat)
      (evs : List RetryEvent),
      countThrottleChecks (retryAux o jit m le fuel attempt evs).2
        = countThrottleChecks evs := by
  intro fuel
  induction fuel with
  | zero => intro le attempt evs; simp [retryAux]
  | succ fuel ih =>
      intro le attempt evs
      simp only [retryAux]
      cases o attempt with
      | none => simp [countThrottleChecks_append, countThrottleChecks]
      | some e =>
          by_cases h1 : nonRetryable4xx e
          · simp [h1, countThrottleChecks_append, countThrottleChecks]
          · by_cases h2 : attempt = m
            · simp [h1, h2, countThrottleChecks_append, countThrottleChecks]
            · simp only [h1, h2, if_false, Bool.false_eq_true, ite_false]
              rw [ih]
              simp [countThrottleChecks_append, countThrottleChecks]

/-- C5 (amended): no attempt of the retry wrapper — first or retry — ever
passes through a `RateLimiter` check before dispatch: the trace of every
`makeGraphQLRequestWithRetry` run contains zero throttle-check events.  The
`RateLimiter` instances of rate-limit.ts are mounted only as inbound
Express middleware; `makeGraphQLRequest` dispatches straight to `fetch`. -/
theorem C5_no_throttle_on_retries (o : Nat → Option ShopifyError)
    (jit : Nat → Nat) (maxRetries : Nat) :
    countThrottleChecks (makeGraphQLRequestWithRetry o jit maxRetries).2 = 0 := by
  unfold makeGraphQLRequestWithRetry
  rw [retryAux_no_throttle]
  rfl

/-- Outcome function of the C5 counterexample: first attempt throws a 500,
second succeeds, so the run contains a genuine retry dispatch. -/
def c5Outcomes : Nat → Option ShopifyError := fun a =>
  if a = 1 then
    some { httpStatus := some 500, retryAfterMs := none,
           msg := "Shopify API error: 500 Internal Server Error" }
  else none

/-- C5 (counterexample to the original claim): a run with a retry (two
dispatches) whose trace contains no throttle check at all — the retry
attempt reaches dispatch without ever re-entering the RequestThrottle, so
the claim "every retry attempt passes through the throttle check before
dispatch" is false on this concrete run. -/
theorem C5_counterexample_retry_bypasses_throttle :
    countDispatches (makeGraphQLRequestWithRetry c5Outcomes zeroJit 3).2 = 2 ∧
    countThrottleChecks (makeGraphQLRequestWithRetry c5Outcomes zeroJit 3).2 = 0 ∧
    retriesThrottled (makeGraphQLRequestWithRetry c5Outcomes zeroJit 3).2 = false := by
  exact ⟨by decide, by decide, by decide⟩

end VendorDetailer
